import Mathlib

/-!
Shallow embedding of the WebSocket session/room/broadcast engine of
`src/lib/alert/alertManager.js` (class `WebSocketHandler`), together with
theorems settling the specification claims about it.

Modelling conventions:
* A live transport (`ws` object) is identified by a `Nat` handle; the JS
  `Map` keyed by the connection object becomes an association list
  `List (Nat × ClientData)` keyed by the handle.
* JS `Map`/`Set` mutation becomes functional update of association lists
  and membership lists; a JS `Set` of client-id strings is a `List String`
  without duplicates by construction.
* Side effects (frames sent, transport closes, storage-collaborator calls,
  timers) become an explicit `List Effect` trace returned next to the new
  state; timestamps (`Date.now()`) are `Nat` parameters.
-/

namespace WSHandler

/-- JavaScript values, as far as the sensor-data validation logic
inspects them (`_validateSensorData`). -/
inductive JSValue where
  | vNull
  | vUndefined
  | vBool (b : Bool)
  | vNum (n : Int)
  | vStr (s : String)
  | vObj (fields : List (String × JSValue))

namespace JSValue

/-- Strict equality with `undefined` (`data[field] === undefined`). -/
def isUndefined : JSValue → Bool
  | vUndefined => true
  | _ => false

/-- Strict equality with `null` (`data[field] === null`). -/
def isNull : JSValue → Bool
  | vNull => true
  | _ => false

/-- JS truthiness (`!data` in `_validateSensorData`), restricted to the
values modelled. -/
def truthy : JSValue → Bool
  | vNull => false
  | vUndefined => false
  | vBool b => b
  | vNum n => n != 0
  | vStr s => s != ""
  | vObj _ => true

/-- Whether `typeof v === 'object'` holds (note: `typeof null` is
`'object'` in JS). -/
def typeofObject : JSValue → Bool
  | vNull => true
  | vObj _ => true
  | _ => false

/-- Property access `data[field]`: a missing key yields `undefined`. -/
def getField (v : JSValue) (name : String) : JSValue :=
  match v with
  | vObj fields =>
    match fields.lookup name with
    | some w => w
    | none => vUndefined
  | _ => vUndefined

/-- The JS `String(v)` conversion, restricted to the values modelled. -/
def jsToString : JSValue → String
  | vNull => "null"
  | vUndefined => "undefined"
  | vBool b => if b then "true" else "false"
  | vNum n => toString n
  | vStr s => s
  | vObj _ => "[object Object]"

end JSValue

/-- The emptiness test `String(v).trim() === ''` of `_validateSensorData`:
the trimmed string is empty exactly when every character is whitespace. -/
def trimmedEmpty (s : String) : Bool :=
  s.data.all Char.isWhitespace

/-- The configuration surface of `WebSocketHandler` (constructor defaults
at `alertManager.js:292-313`), restricted to the fields the claims touch.
`dbSupportsSubscribe` models whether `this.db.subscribe` is defined. -/
structure Config where
  enableAuthentication : Bool
  authToken : String
  requiredFields : List String
  enableHeartbeat : Bool
  heartbeatInterval : Nat
  maxConnections : Nat
  enableDataValidation : Bool
  enableDatabaseSync : Bool
  enableRoomBroadcast : Bool
  dbTableName : String
  dbSupportsSubscribe : Bool
  deriving DecidableEq, Repr

/-- Per-client metadata stored in `this.clients` (`_handleNewConnection`,
`alertManager.js:441-450`). -/
structure ClientData where
  id : String
  isAuthenticated : Bool
  dataReceived : Nat
  lastHeartbeat : Nat
  lastDataTime : Option Nat
  deriving DecidableEq, Repr

/-- A room entry (`this.rooms` values): a set of member client ids plus
the optional subscription metadata (`table`). -/
structure Room where
  clients : List String
  table : Option String
  deriving DecidableEq, Repr

/-- The mutable state of one `WebSocketHandler` instance. -/
structure ServerState where
  clients : List (Nat × ClientData)
  rooms : List (String × Room)
  dbSubscriptions : List String
  connectionCount : Int
  deriving DecidableEq, Repr

/-- `this.rooms.get(roomId)` / `has(roomId)` (first-match association
lookup). -/
def lookupRoom : List (String × Room) → String → Option Room
  | [], _ => none
  | (k, v) :: rest, r => if k = r then some v else lookupRoom rest r

/-- `this.rooms.set(roomId, room)`: replace the first entry with this key,
or append. -/
def setRoom : List (String × Room) → String → Room → List (String × Room)
  | [], r, v => [(r, v)]
  | (k, w) :: rest, r, v =>
    if k = r then (r, v) :: rest else (k, w) :: setRoom rest r v

/-- `this.rooms.delete(roomId)`. -/
def removeRoom (rooms : List (String × Room)) (r : String) : List (String × Room) :=
  rooms.filter (fun e => e.1 ≠ r)

/-- `room.clients.add(id)` on a JS `Set`: a no-op when already a member. -/
def addMember (l : List String) (cid : String) : List String :=
  if cid ∈ l then l else l ++ [cid]

/-- The room-registry effect of `_handleJoinRoom` (`alertManager.js:1157-1177`):
a falsy `roomId` aborts; otherwise the room is created when absent and the
member is added. -/
def joinRoom (rooms : List (String × Room)) (roomId cid : String) :
    List (String × Room) :=
  if roomId = "" then rooms
  else
    match lookupRoom rooms roomId with
    | some room => setRoom rooms roomId { room with clients := addMember room.clients cid }
    | none => setRoom rooms roomId { clients := addMember [] cid, table := none }

/-- The room-registry effect of `_handleLeaveRoom` (`alertManager.js:1179-1197`):
a falsy or unknown `roomId` aborts; otherwise the member is removed and
the room deleted when its member set becomes empty. -/
def leaveRoom (rooms : List (String × Room)) (roomId cid : String) :
    List (String × Room) :=
  if roomId = "" then rooms
  else
    match lookupRoom rooms roomId with
    | none => rooms
    | some room =>
      if (room.clients.filter (fun x => x ≠ cid)).isEmpty then removeRoom rooms roomId
      else setRoom rooms roomId
        { room with clients := room.clients.filter (fun x => x ≠ cid) }

/-- The room-registry effect of `_handleDatabaseSubscribe`
(`alertManager.js:1074-1086`): the synthetic room `db_<table>` is created
with its subscription metadata when absent, then the member is added. -/
def subscribeJoin (rooms : List (String × Room)) (roomId table cid : String) :
    List (String × Room) :=
  match lookupRoom rooms roomId with
  | some room => setRoom rooms roomId { room with clients := addMember room.clients cid }
  | none => setRoom rooms roomId { clients := addMember [] cid, table := some table }

/-- A join or leave operation on the room registry, for stating
properties over arbitrary operation sequences. -/
inductive RoomOp where
  | join (roomId cid : String)
  | leave (roomId cid : String)
  deriving DecidableEq, Repr

/-- Apply one room operation. -/
def applyRoomOp (rooms : List (String × Room)) : RoomOp → List (String × Room)
  | RoomOp.join r c => joinRoom rooms r c
  | RoomOp.leave r c => leaveRoom rooms r c

/-- Run a sequence of room operations from a given registry. -/
def runRoomOps (rooms : List (String × Room)) : List RoomOp → List (String × Room)
  | [] => rooms
  | op :: rest => runRoomOps (applyRoomOp rooms op) rest

/-- Member count of a room, zero when the room is absent. -/
def memberCount (rooms : List (String × Room)) (roomId : String) : Nat :=
  match lookupRoom rooms roomId with
  | some r => r.clients.length
  | none => 0

/-- No registered room has an empty member set. -/
def noEmptyRooms (rooms : List (String × Room)) : Prop :=
  ∀ e ∈ rooms, e.2.clients ≠ []

-- Client registry (`this.clients`, a JS Map keyed by the connection object)

/-- `this.clients.get(ws)`. -/
def lookupClient : List (Nat × ClientData) → Nat → Option ClientData
  | [], _ => none
  | (k, v) :: rest, ws => if k = ws then some v else lookupClient rest ws

/-- `this.clients.set(ws, clientData)`. -/
def setClient : List (Nat × ClientData) → Nat → ClientData → List (Nat × ClientData)
  | [], ws, v => [(ws, v)]
  | (k, w) :: rest, ws, v =>
    if k = ws then (ws, v) :: rest else (k, w) :: setClient rest ws v

/-- `this.clients.delete(ws)`. -/
def removeClient (clients : List (Nat × ClientData)) (ws : Nat) :
    List (Nat × ClientData) :=
  clients.filter (fun e => e.1 ≠ ws)

/-- In-place mutation of the `clientData` object held for `ws`
(e.g. `clientData.isAuthenticated = true`). -/
def updateClient (clients : List (Nat × ClientData)) (ws : Nat)
    (f : ClientData → ClientData) : List (Nat × ClientData) :=
  match clients with
  | [] => []
  | (k, v) :: rest =>
    if k = ws then (k, f v) :: rest else (k, v) :: updateClient rest ws f

-- Frames and effects

/-- Outbound frames (`type` values of §6), restricted to the fields the
claims inspect; the polled `timestamp` field is omitted. -/
inductive OutMsg where
  | welcome (clientId : String) (authRequired : Bool)
  | authResponse (success : Bool) (text : String)
  | dataResponse (success : Bool) (text : String)
  | errorMsg (text : String)
  | pong
  | heartbeatResponse
  | dbCreateResponse (success : Bool)
  | dbReadResponse (success : Bool)
  | dbUpdateResponse (success : Bool)
  | dbDeleteResponse (success : Bool)
  | dbSubscribeResponse (success : Bool)
  | dbUnsubscribeResponse (success : Bool)
  | dbChange (action : String) (table : String) (clientId : String)
  | roomJoined (roomId : String)
  | roomLeft (roomId : String)
  deriving DecidableEq, Repr

/-- Observable actions of one handler invocation, in program order.
`sendFrame ws m` is an invocation of `_sendToClient(ws, m)` (which itself
guards on the transport being open); `roomBroadcast` is an invocation of
`broadcastToRoom`, whose per-member delivery behaviour is modelled
separately below; the `db*` effects are the storage-collaborator calls;
`scheduleAuthFailClose` is the `setTimeout` armed after a failed
credential check. The fire-and-forget renderer/alert notifications are
not modelled. -/
inductive Effect where
  | sendFrame (ws : Nat) (msg : OutMsg)
  | closeConn (ws : Nat) (code : Nat) (reason : String)
  | scheduleAuthFailClose (ws : Nat) (code : Nat)
  | startHeartbeat (ws : Nat)
  | pingFrame (ws : Nat)
  | dbPost (table : String)
  | dbGet (table : String)
  | dbUpdateCall (table : String)
  | dbDeleteCall (table : String)
  | dbSubscribeCall (table : String)
  | dbCancelFeed (roomId : String)
  | roomBroadcast (roomId : String) (msg : OutMsg)
  deriving DecidableEq, Repr

/-- Transport readiness (`ws.readyState`). -/
inductive ReadyState where
  | connecting
  | opened
  | closing
  | closed
  deriving DecidableEq, Repr

/-- The empty server: no clients, no rooms, no change feeds. -/
def initialState : ServerState :=
  { clients := [], rooms := [], dbSubscriptions := [], connectionCount := 0 }

-- Session lifecycle

/-- `_handleNewConnection` (`alertManager.js:426-481`). The fresh transport
handle `ws`, the generated client id and `Date.now()` are parameters. At
or above the connection ceiling the transport is closed with 1013 and no
bookkeeping happens; otherwise the session is registered, its heartbeat
started when enabled, and a welcome frame sent. -/
def handleNewConnection (cfg : Config) (st : ServerState) (ws : Nat)
    (clientId : String) (now : Nat) : ServerState × List Effect :=
  if st.connectionCount ≥ (cfg.maxConnections : Int) then
    (st, [Effect.closeConn ws 1013 "Server overloaded"])
  else
    let clientData : ClientData :=
      { id := clientId, isAuthenticated := !cfg.enableAuthentication,
        dataReceived := 0, lastHeartbeat := now, lastDataTime := none }
    ({ st with clients := setClient st.clients ws clientData,
               connectionCount := st.connectionCount + 1 },
     (if cfg.enableHeartbeat then [Effect.startHeartbeat ws] else []) ++
       [Effect.sendFrame ws (OutMsg.welcome clientId cfg.enableAuthentication)])

/-- `_handleClientDisconnection` (`alertManager.js:777-791`): the session
is deleted from the registry and the connection count decremented; the
room registry and the change-feed table are not touched. -/
def handleClientDisconnection (st : ServerState) (ws : Nat) : ServerState :=
  { st with clients := removeClient st.clients ws,
            connectionCount := st.connectionCount - 1 }

/-- One tick of the per-client heartbeat timer (`_startClientHeartbeat`,
`alertManager.js:794-810`). Returns the effects and whether the timer
cancelled itself (`clearInterval`). -/
def heartbeatTick (cfg : Config) (ws : Nat) (rs : ReadyState)
    (now lastHeartbeat : Nat) : List Effect × Bool :=
  if rs = ReadyState.opened then
    if now - lastHeartbeat > cfg.heartbeatInterval * 2 then
      ([Effect.closeConn ws 1000 "Heartbeat timeout"], true)
    else
      ([Effect.pingFrame ws], false)
  else
    ([], true)

-- Authentication

/-- `_handleAuthentication` (`alertManager.js:589-633`). `token` is the
frame's `token` field, `none` when absent. -/
def handleAuthentication (cfg : Config) (st : ServerState) (ws : Nat)
    (token : Option String) : ServerState × List Effect :=
  if !cfg.enableAuthentication then
    (st, [Effect.sendFrame ws (OutMsg.authResponse true "Authentication not required")])
  else if token = some cfg.authToken then
    let clients' := updateClient st.clients ws
      (fun cd => { cd with isAuthenticated := true })
    ({ st with clients := clients' },
     [Effect.sendFrame ws (OutMsg.authResponse true "Authentication successful")])
  else
    (st, [Effect.sendFrame ws (OutMsg.authResponse false "Invalid authentication token"),
          Effect.scheduleAuthFailClose ws 1008])

/-- The body of the `setTimeout` armed after a failed credential check
(`alertManager.js:627-631`): close with policy-violation status 1008 if
the transport is still open. -/
def authFailTimeoutBody (ws : Nat) (rs : ReadyState) : List Effect :=
  if rs = ReadyState.opened then
    [Effect.closeConn ws 1008 "Authentication failed"]
  else
    []

/-- `_checkAuthAndSend`'s condition (`alertManager.js:1200-1210`): true
when the message may proceed. -/
def checkAuth (cfg : Config) (cd : ClientData) : Bool :=
  !(cfg.enableAuthentication && !cd.isAuthenticated)

-- Sensor data

/-- `_validateSensorData` (`alertManager.js:702-716`). -/
def validateSensorData (cfg : Config) (data : JSValue) : Bool :=
  if !data.truthy || !data.typeofObject then false
  else
    cfg.requiredFields.all fun field =>
      let v := data.getField field
      !(v.isUndefined || v.isNull || trimmedEmpty v.jsToString)

/-- `_handleSensorData` (`alertManager.js:636-689`). `payload` is the
resolved `message.data || message.payload || message` value; the
asynchronous `_saveToDatabase` continuation is abstracted to its
collaborator-call effect. -/
def handleSensorData (cfg : Config) (st : ServerState) (ws : Nat)
    (cd : ClientData) (payload : JSValue) : ServerState × List Effect :=
  if cfg.enableAuthentication && !cd.isAuthenticated then
    (st, [Effect.sendFrame ws (OutMsg.errorMsg "Authentication required")])
  else if cfg.enableDataValidation && !validateSensorData cfg payload then
    (st, [Effect.sendFrame ws (OutMsg.dataResponse false "Data validation failed")])
  else
    (st, [Effect.dbPost cfg.dbTableName])

/-- `_handleHeartbeat` (`alertManager.js:692-699`). -/
def handleHeartbeat (st : ServerState) (ws : Nat) (now : Nat) :
    ServerState × List Effect :=
  let clients' := updateClient st.clients ws
    (fun cd => { cd with lastHeartbeat := now })
  ({ st with clients := clients' },
   [Effect.sendFrame ws OutMsg.heartbeatResponse])

-- Database operation handlers

/-- `_handleDatabaseCreate` (`alertManager.js:873-920`). `hasData` models
the truthiness of the frame's `data` field. -/
def handleDatabaseCreate (cfg : Config) (st : ServerState) (ws : Nat)
    (cd : ClientData) (table : String) (hasData : Bool) :
    ServerState × List Effect :=
  if !checkAuth cfg cd then
    (st, [Effect.sendFrame ws (OutMsg.errorMsg "Authentication required")])
  else if table = "" || !hasData then
    (st, [Effect.sendFrame ws (OutMsg.dbCreateResponse false)])
  else
    (st, [Effect.dbPost table, Effect.sendFrame ws (OutMsg.dbCreateResponse true)] ++
      (if cfg.enableDatabaseSync then
        [Effect.roomBroadcast ("db_" ++ table) (OutMsg.dbChange "create" table cd.id)]
      else []))

/-- `_handleDatabaseRead` (`alertManager.js:922-957`). -/
def handleDatabaseRead (cfg : Config) (st : ServerState) (ws : Nat)
    (cd : ClientData) (table : String) : ServerState × List Effect :=
  if !checkAuth cfg cd then
    (st, [Effect.sendFrame ws (OutMsg.errorMsg "Authentication required")])
  else if table = "" then
    (st, [Effect.sendFrame ws (OutMsg.dbReadResponse false)])
  else
    (st, [Effect.dbGet table, Effect.sendFrame ws (OutMsg.dbReadResponse true)])

/-- `_handleDatabaseUpdate` (`alertManager.js:959-1006`). -/
def handleDatabaseUpdate (cfg : Config) (st : ServerState) (ws : Nat)
    (cd : ClientData) (table : String) (hasData : Bool) :
    ServerState × List Effect :=
  if !checkAuth cfg cd then
    (st, [Effect.sendFrame ws (OutMsg.errorMsg "Authentication required")])
  else if table = "" || !hasData then
    (st, [Effect.sendFrame ws (OutMsg.dbUpdateResponse false)])
  else
    (st, [Effect.dbUpdateCall table, Effect.sendFrame ws (OutMsg.dbUpdateResponse true)] ++
      (if cfg.enableDatabaseSync then
        [Effect.roomBroadcast ("db_" ++ table) (OutMsg.dbChange "update" table cd.id)]
      else []))

/-- `_handleDatabaseDelete` (`alertManager.js:1008-1057`). -/
def handleDatabaseDelete (cfg : Config) (st : ServerState) (ws : Nat)
    (cd : ClientData) (table : String) : ServerState × List Effect :=
  if !checkAuth cfg cd then
    (st, [Effect.sendFrame ws (OutMsg.errorMsg "Authentication required")])
  else if table = "" then
    (st, [Effect.sendFrame ws (OutMsg.dbDeleteResponse false)])
  else
    (st, [Effect.dbDeleteCall table, Effect.sendFrame ws (OutMsg.dbDeleteResponse true)] ++
      (if cfg.enableDatabaseSync then
        [Effect.roomBroadcast ("db_" ++ table) (OutMsg.dbChange "delete" table cd.id)]
      else []))

/-- `_handleDatabaseSubscribe` (`alertManager.js:1059-1122`): join the
synthetic room `db_<table>`; when the backend supports live feeds and no
feed exists yet for that room, establish exactly one. -/
def handleDatabaseSubscribe (cfg : Config) (st : ServerState) (ws : Nat)
    (cd : ClientData) (table : String) : ServerState × List Effect :=
  if !checkAuth cfg cd then
    (st, [Effect.sendFrame ws (OutMsg.errorMsg "Authentication required")])
  else if table = "" then
    (st, [Effect.sendFrame ws (OutMsg.dbSubscribeResponse false)])
  else
    let roomId := "db_" ++ table
    let feedNew := cfg.dbSupportsSubscribe && !(st.dbSubscriptions.contains roomId)
    ({ st with rooms := subscribeJoin st.rooms roomId table cd.id,
               dbSubscriptions :=
                 if feedNew then st.dbSubscriptions ++ [roomId]
                 else st.dbSubscriptions },
     (if feedNew then [Effect.dbSubscribeCall table] else []) ++
       [Effect.sendFrame ws (OutMsg.dbSubscribeResponse true)])

/-- `_handleDatabaseUnsubscribe` (`alertManager.js:1124-1155`). Note: the
source performs no authentication check here. A falsy `table` aborts with
no response; otherwise the member is removed and, when the room empties,
the stored cancellation handle (if any) is invoked and the room and feed
entries deleted; the success response is sent regardless. -/
def handleDatabaseUnsubscribe (st : ServerState) (ws : Nat) (cd : ClientData)
    (table : String) : ServerState × List Effect :=
  if table = "" then (st, [])
  else
    let roomId := "db_" ++ table
    match lookupRoom st.rooms roomId with
    | none =>
      (st, [Effect.sendFrame ws (OutMsg.dbUnsubscribeResponse true)])
    | some room =>
      if (room.clients.filter (fun x => x ≠ cd.id)).isEmpty then
        ({ st with rooms := removeRoom st.rooms roomId,
                   dbSubscriptions :=
                     if st.dbSubscriptions.contains roomId then
                       st.dbSubscriptions.filter (fun x => x ≠ roomId)
                     else st.dbSubscriptions },
         (if st.dbSubscriptions.contains roomId then [Effect.dbCancelFeed roomId]
          else []) ++
           [Effect.sendFrame ws (OutMsg.dbUnsubscribeResponse true)])
      else
        let rooms' := setRoom st.rooms roomId
          { room with clients := room.clients.filter (fun x => x ≠ cd.id) }
        ({ st with rooms := rooms' },
         [Effect.sendFrame ws (OutMsg.dbUnsubscribeResponse true)])

-- Room membership handlers (note: no authentication check in the source)

/-- `_handleJoinRoom` (`alertManager.js:1157-1177`). -/
def handleJoinRoom (st : ServerState) (ws : Nat) (cd : ClientData)
    (roomId : String) : ServerState × List Effect :=
  if roomId = "" then (st, [])
  else
    ({ st with rooms := joinRoom st.rooms roomId cd.id },
     [Effect.sendFrame ws (OutMsg.roomJoined roomId)])

/-- `_handleLeaveRoom` (`alertManager.js:1179-1197`). -/
def handleLeaveRoom (st : ServerState) (ws : Nat) (cd : ClientData)
    (roomId : String) : ServerState × List Effect :=
  if roomId = "" || (lookupRoom st.rooms roomId).isNone then (st, [])
  else
    ({ st with rooms := leaveRoom st.rooms roomId cd.id },
     [Effect.sendFrame ws (OutMsg.roomLeft roomId)])

-- Message router

/-- Decoded inbound frames (`message.type` dispatch of
`_handleClientMessage`), with the payload fields the handlers read.
`table`/`roomId` carry `""` for a falsy or absent field. -/
inductive InMsg where
  | auth (token : Option String)
  | sensorData (payload : JSValue)
  | heartbeat
  | ping
  | dbCreate (table : String) (hasData : Bool)
  | dbRead (table : String)
  | dbUpdate (table : String) (hasData : Bool)
  | dbDelete (table : String)
  | dbSubscribe (table : String)
  | dbUnsubscribe (table : String)
  | joinRoom (roomId : String)
  | leaveRoom (roomId : String)
  | unknown (t : String)

/-- The `switch (message.type)` body of `_handleClientMessage`
(`alertManager.js:518-576`); `cd` is the (already counter-updated)
client record. -/
def dispatchMessage (cfg : Config) (st : ServerState) (ws : Nat)
    (cd : ClientData) (msg : InMsg) (now : Nat) : ServerState × List Effect :=
  match msg with
  | InMsg.auth token => handleAuthentication cfg st ws token
  | InMsg.sensorData payload => handleSensorData cfg st ws cd payload
  | InMsg.heartbeat => handleHeartbeat st ws now
  | InMsg.ping => (st, [Effect.sendFrame ws OutMsg.pong])
  | InMsg.dbCreate table hasData => handleDatabaseCreate cfg st ws cd table hasData
  | InMsg.dbRead table => handleDatabaseRead cfg st ws cd table
  | InMsg.dbUpdate table hasData => handleDatabaseUpdate cfg st ws cd table hasData
  | InMsg.dbDelete table => handleDatabaseDelete cfg st ws cd table
  | InMsg.dbSubscribe table => handleDatabaseSubscribe cfg st ws cd table
  | InMsg.dbUnsubscribe table => handleDatabaseUnsubscribe st ws cd table
  | InMsg.joinRoom roomId => handleJoinRoom st ws cd roomId
  | InMsg.leaveRoom roomId => handleLeaveRoom st ws cd roomId
  | InMsg.unknown t =>
    (st, [Effect.sendFrame ws (OutMsg.errorMsg ("Unknown message type: " ++ t))])

/-- `_handleClientMessage` (`alertManager.js:509-586`): stamp the liveness
counters on the sender's record, then dispatch by kind. A `ws` with no
registry entry is a no-op (the source reaches this only through a live
connection's closure). -/
def handleClientMessage (cfg : Config) (st : ServerState) (ws : Nat)
    (msg : InMsg) (now : Nat) : ServerState × List Effect :=
  match lookupClient st.clients ws with
  | none => (st, [])
  | some cd =>
    let clients' := updateClient st.clients ws
      (fun c => { c with dataReceived := c.dataReceived + 1,
                         lastDataTime := some now })
    dispatchMessage cfg { st with clients := clients' } ws
      { cd with dataReceived := cd.dataReceived + 1, lastDataTime := some now }
      msg now

-- Broadcast engine

/-- The reverse lookup inside `broadcastToRoom`
(`alertManager.js:854-856`): first registry entry whose client id
matches. -/
def findWsByClientId (clients : List (Nat × ClientData)) (cid : String) :
    Option Nat :=
  match clients.find? (fun p => p.2.id = cid) with
  | some p => some p.1
  | none => none

/-- One `forEach` step of `broadcastToRoom`: deliver to `cid` when it
resolves to a registered transport that is open and whose `send` does not
throw; the accumulator is (successful-send count, ids delivered to). -/
def deliverStep (clients : List (Nat × ClientData)) (isOpen sendOk : Nat → Bool)
    (acc : Nat × List String) (cid : String) : Nat × List String :=
  match findWsByClientId clients cid with
  | some ws =>
    if isOpen ws then
      if sendOk ws then (acc.1 + 1, acc.2 ++ [cid]) else acc
    else acc
  | none => acc

/-- `broadcastToRoom` (`alertManager.js:844-870`): returns the successful
delivery count and the member ids delivered to. `isOpen ws` models
`ws.readyState === WebSocket.OPEN` and `sendOk ws` whether `ws.send`
returns without throwing (a throw is caught and logged). -/
def broadcastToRoom (cfg : Config) (st : ServerState) (isOpen sendOk : Nat → Bool)
    (roomId : String) : Nat × List String :=
  if !cfg.enableRoomBroadcast then (0, [])
  else
    match lookupRoom st.rooms roomId with
    | none => (0, [])
    | some room => room.clients.foldl (deliverStep st.clients isOpen sendOk) (0, [])

-- Status

/-- One entry of `getStatus().clients` (`alertManager.js:1214-1221`),
restricted to the identity-bearing fields. -/
structure ClientStatusInfo where
  id : String
  isAuthenticated : Bool
  dataReceived : Nat
  deriving DecidableEq, Repr

/-- `getStatus` (`alertManager.js:1213-1234`), restricted to the fields
the claims inspect. -/
structure Status where
  connectionCount : Int
  maxConnections : Nat
  authEnabled : Bool
  clients : List ClientStatusInfo
  deriving DecidableEq, Repr

def getStatus (cfg : Config) (st : ServerState) : Status :=
  { connectionCount := st.connectionCount,
    maxConnections := cfg.maxConnections,
    authEnabled := cfg.enableAuthentication,
    clients := st.clients.map
      (fun p => { id := p.2.id, isAuthenticated := p.2.isAuthenticated,
                  dataReceived := p.2.dataReceived }) }

-- Operation sequences over the whole server

/-- External events driving the server: a transport connecting, a decoded
frame from a connected transport, a transport close event. -/
inductive Op where
  | connect (ws : Nat) (clientId : String) (now : Nat)
  | message (ws : Nat) (msg : InMsg) (now : Nat)
  | disconnect (ws : Nat)

/-- Whether an event is a transport close. -/
def Op.isDisconnect : Op → Bool
  | Op.disconnect _ => true
  | _ => false

/-- State transition of one event (effects discarded). -/
def applyOp (cfg : Config) (st : ServerState) : Op → ServerState
  | Op.connect ws cid now => (handleNewConnection cfg st ws cid now).1
  | Op.message ws m now => (handleClientMessage cfg st ws m now).1
  | Op.disconnect ws => handleClientDisconnection st ws

/-- Run a sequence of events. -/
def runOps (cfg : Config) (st : ServerState) : List Op → ServerState
  | [] => st
  | op :: rest => runOps cfg (applyOp cfg st op) rest

/-- Fresh-transport discipline: a `connect` event never reuses the handle
of a still-registered connection (a JS `Map` keyed by the connection
object cannot collide on a new connection). -/
def opsFresh (cfg : Config) (st : ServerState) : List Op → Bool
  | [] => true
  | op :: rest =>
    (match op with
     | Op.connect ws _ _ => (lookupClient st.clients ws).isNone
     | _ => true) &&
      opsFresh cfg (applyOp cfg st op) rest

/-- Whether `cid` is the identity of some registered session. -/
def memberRegistered (clients : List (Nat × ClientData)) (cid : String) : Bool :=
  clients.any (fun p => p.2.id = cid)

/-- The §3 model invariant: every identity in any room's member set
belongs to a registered session. -/
def regInvariant (st : ServerState) : Bool :=
  st.rooms.all (fun e => e.2.clients.all (memberRegistered st.clients))

-- Broadcast-engine characterization

/-- Whether `broadcastToRoom` delivers to member `cid`: it resolves to a
registered transport that is currently open and whose send succeeds. -/
def deliveredPred (clients : List (Nat × ClientData)) (isOpen sendOk : Nat → Bool)
    (cid : String) : Bool :=
  match findWsByClientId clients cid with
  | some ws => isOpen ws && sendOk ws
  | none => false

/-- Whether member `cid` resolves to a registered, currently-open
transport (a live open member in the claim's sense; its complement in
the member set are the stale identities). -/
def liveOpen (clients : List (Nat × ClientData)) (isOpen : Nat → Bool)
    (cid : String) : Bool :=
  match findWsByClientId clients cid with
  | some ws => isOpen ws
  | none => false

/-- The inbound kinds whose handler checks authentication before acting
(`_checkAuthAndSend`, or the inline gate of `_handleSensorData`). The
source performs no such check for `db_unsubscribe`, `join_room` and
`leave_room`. -/
def gatedByAuth : InMsg → Bool
  | InMsg.sensorData _ => true
  | InMsg.dbCreate _ _ => true
  | InMsg.dbRead _ => true
  | InMsg.dbUpdate _ _ => true
  | InMsg.dbDelete _ => true
  | InMsg.dbSubscribe _ => true
  | _ => false

-- Association-list lemmas

theorem lookupRoom_setRoom_self (rooms : List (String × Room)) (r : String) (v : Room) :
    lookupRoom (setRoom rooms r v) r = some v := by
  induction rooms with
  | nil => simp [setRoom, lookupRoom]
  | cons e rest ih =>
    by_cases h : e.1 = r
    · simp [setRoom, h, lookupRoom]
    · simp [setRoom, h, lookupRoom, ih]

theorem lookupRoom_removeRoom_self (rooms : List (String × Room)) (r : String) :
    lookupRoom (removeRoom rooms r) r = none := by
  induction rooms with
  | nil => simp [removeRoom, lookupRoom]
  | cons e rest ih =>
    by_cases h : e.1 = r
    · simpa [removeRoom, h] using ih
    · simpa [removeRoom, lookupRoom, h] using ih

theorem setRoom_lookup_eq (rooms : List (String × Room)) (r : String) (v : Room)
    (h : lookupRoom rooms r = some v) : setRoom rooms r v = rooms := by
  induction rooms with
  | nil => simp [lookupRoom] at h
  | cons e rest ih =>
    obtain ⟨k, w⟩ := e
    by_cases he : k = r
    · simp only [lookupRoom, he, if_pos, Option.some.injEq] at h
      subst he
      subst h
      simp [setRoom]
    · simp only [lookupRoom, he, if_neg, if_false] at h
      simp [setRoom, he, ih h]

theorem mem_setRoom (rooms : List (String × Room)) (r : String) (v : Room)
    (e : String × Room) (h : e ∈ setRoom rooms r v) : e = (r, v) ∨ e ∈ rooms := by
  induction rooms with
  | nil => simpa [setRoom] using h
  | cons f rest ih =>
    by_cases hf : f.1 = r
    · simp [setRoom, hf] at h
      rcases h with h | h
      · exact Or.inl h
      · exact Or.inr (List.mem_cons_of_mem _ h)
    · simp [setRoom, hf] at h
      rcases h with h | h
      · exact Or.inr (by simp [h])
      · rcases ih h with h' | h'
        · exact Or.inl h'
        · exact Or.inr (List.mem_cons_of_mem _ h')

theorem lookupRoom_mem (rooms : List (String × Room)) (r : String) (v : Room)
    (h : lookupRoom rooms r = some v) : (r, v) ∈ rooms := by
  induction rooms with
  | nil => simp [lookupRoom] at h
  | cons e rest ih =>
    obtain ⟨k, w⟩ := e
    by_cases he : k = r
    · simp only [lookupRoom, he, if_pos, Option.some.injEq] at h
      subst he
      subst h
      exact List.mem_cons_self _ _
    · simp only [lookupRoom, he, if_neg, if_false] at h
      exact List.mem_cons_of_mem _ (ih h)

theorem mem_removeRoom (rooms : List (String × Room)) (r : String)
    (e : String × Room) (h : e ∈ removeRoom rooms r) : e ∈ rooms :=
  List.mem_of_mem_filter h

theorem filter_ne_idem (l : List String) (cid : String) :
    (l.filter (fun x => x ≠ cid)).filter (fun x => x ≠ cid) =
      l.filter (fun x => x ≠ cid) := by
  rw [List.filter_filter]
  simp

-- C9: leave is idempotent on the room registry.

theorem leaveRoom_idem (rooms : List (String × Room)) (roomId cid : String) :
    leaveRoom (leaveRoom rooms roomId cid) roomId cid =
      leaveRoom rooms roomId cid := by
  by_cases hr : roomId = ""
  · simp [leaveRoom, hr]
  · cases hlook : lookupRoom rooms roomId with
    | none =>
      have h1 : leaveRoom rooms roomId cid = rooms := by
        unfold leaveRoom
        rw [if_neg hr, hlook]
      rw [h1, h1]
    | some room =>
      by_cases hemp : (room.clients.filter (fun x => x ≠ cid)).isEmpty
      · have h1 : leaveRoom rooms roomId cid = removeRoom rooms roomId := by
          unfold leaveRoom
          rw [if_neg hr, hlook]
          exact if_pos hemp
        rw [h1]
        unfold leaveRoom
        rw [if_neg hr, lookupRoom_removeRoom_self]
      · have h1 : leaveRoom rooms roomId cid = setRoom rooms roomId
            { room with clients := room.clients.filter (fun x => x ≠ cid) } := by
          unfold leaveRoom
          rw [if_neg hr, hlook]
          exact if_neg hemp
        rw [h1]
        unfold leaveRoom
        rw [if_neg hr, lookupRoom_setRoom_self]
        simp only [filter_ne_idem]
        rw [if_neg hemp]
        exact setRoom_lookup_eq _ _ _ (lookupRoom_setRoom_self rooms roomId _)

-- The no-empty-room invariant, preserved by join and leave

theorem addMember_ne_nil (l : List String) (cid : String) : addMember l cid ≠ [] := by
  unfold addMember
  by_cases h : cid ∈ l
  · rw [if_pos h]
    exact List.ne_nil_of_mem h
  · rw [if_neg h]
    simp

theorem leaveRoom_of_lookup_none {rooms : List (String × Room)} {roomId : String}
    (cid : String) (hr : ¬roomId = "") (hlook : lookupRoom rooms roomId = none) :
    leaveRoom rooms roomId cid = rooms := by
  unfold leaveRoom
  rw [if_neg hr, hlook]

theorem leaveRoom_of_empty {rooms : List (String × Room)} {roomId cid : String}
    {room : Room} (hr : ¬roomId = "") (hlook : lookupRoom rooms roomId = some room)
    (hemp : (room.clients.filter (fun x => x ≠ cid)).isEmpty) :
    leaveRoom rooms roomId cid = removeRoom rooms roomId := by
  unfold leaveRoom
  rw [if_neg hr, hlook]
  exact if_pos hemp

theorem leaveRoom_of_nonempty {rooms : List (String × Room)} {roomId cid : String}
    {room : Room} (hr : ¬roomId = "") (hlook : lookupRoom rooms roomId = some room)
    (hemp : ¬(room.clients.filter (fun x => x ≠ cid)).isEmpty = true) :
    leaveRoom rooms roomId cid = setRoom rooms roomId
      { room with clients := room.clients.filter (fun x => x ≠ cid) } := by
  unfold leaveRoom
  rw [if_neg hr, hlook]
  exact if_neg hemp

theorem joinRoom_noEmpty (rooms : List (String × Room)) (r c : String)
    (h : noEmptyRooms rooms) : noEmptyRooms (joinRoom rooms r c) := by
  intro e he
  unfold joinRoom at he
  by_cases hr : r = ""
  · rw [if_pos hr] at he
    exact h e he
  · rw [if_neg hr] at he
    cases hlook : lookupRoom rooms r with
    | none =>
      rw [hlook] at he
      rcases mem_setRoom _ _ _ _ he with h1 | h1
      · subst h1
        exact addMember_ne_nil [] c
      · exact h e h1
    | some room =>
      rw [hlook] at he
      rcases mem_setRoom _ _ _ _ he with h1 | h1
      · subst h1
        exact addMember_ne_nil room.clients c
      · exact h e h1

theorem leaveRoom_noEmpty (rooms : List (String × Room)) (r c : String)
    (h : noEmptyRooms rooms) : noEmptyRooms (leaveRoom rooms r c) := by
  intro e he
  by_cases hr : r = ""
  · unfold leaveRoom at he
    rw [if_pos hr] at he
    exact h e he
  · cases hlook : lookupRoom rooms r with
    | none =>
      rw [leaveRoom_of_lookup_none c hr hlook] at he
      exact h e he
    | some room =>
      by_cases hemp : (room.clients.filter (fun x => x ≠ c)).isEmpty
      · rw [leaveRoom_of_empty hr hlook hemp] at he
        exact h e (mem_removeRoom _ _ _ he)
      · rw [leaveRoom_of_nonempty hr hlook hemp] at he
        rcases mem_setRoom _ _ _ _ he with h1 | h1
        · subst h1
          intro hnil
          have hnil' : room.clients.filter (fun x => x ≠ c) = [] := hnil
          rw [hnil'] at hemp
          simp at hemp
        · exact h e h1

theorem runRoomOps_noEmpty (ops : List RoomOp) (rooms : List (String × Room))
    (h : noEmptyRooms rooms) : noEmptyRooms (runRoomOps rooms ops) := by
  induction ops generalizing rooms with
  | nil => exact h
  | cons op rest ih =>
    cases op with
    | join r c => exact ih _ (joinRoom_noEmpty _ _ _ h)
    | leave r c => exact ih _ (leaveRoom_noEmpty _ _ _ h)

theorem noEmpty_registry_iff (rooms : List (String × Room))
    (h : noEmptyRooms rooms) (roomId : String) :
    (lookupRoom rooms roomId).isSome ↔ 0 < memberCount rooms roomId := by
  unfold memberCount
  cases hlook : lookupRoom rooms roomId with
  | none => simp
  | some room =>
    simp only [Option.isSome_some, true_iff]
    exact List.length_pos.mpr (h _ (lookupRoom_mem _ _ _ hlook))

theorem deliverStep_eq (clients : List (Nat × ClientData))
    (isOpen sendOk : Nat → Bool) (acc : Nat × List String) (cid : String) :
    deliverStep clients isOpen sendOk acc cid =
      if deliveredPred clients isOpen sendOk cid then (acc.1 + 1, acc.2 ++ [cid])
      else acc := by
  unfold deliverStep deliveredPred
  cases findWsByClientId clients cid with
  | none => simp
  | some ws => cases ho : isOpen ws <;> cases hs : sendOk ws <;> simp [ho, hs]

theorem foldl_deliverStep (clients : List (Nat × ClientData))
    (isOpen sendOk : Nat → Bool) (l : List String) (n : Nat) (acc : List String) :
    l.foldl (deliverStep clients isOpen sendOk) (n, acc) =
      (n + (l.filter (deliveredPred clients isOpen sendOk)).length,
       acc ++ l.filter (deliveredPred clients isOpen sendOk)) := by
  induction l generalizing n acc with
  | nil => simp
  | cons cid rest ih =>
    rw [List.foldl_cons, List.filter_cons, deliverStep_eq]
    by_cases hd : deliveredPred clients isOpen sendOk cid = true
    · rw [if_pos hd, ih]
      simp only [hd, if_true, List.length_cons, Prod.mk.injEq]
      constructor
      · omega
      · simp
    · rw [if_neg hd, ih]
      simp [hd]

/-- Claim C4: with room broadcasting enabled and the room registered,
`broadcastToRoom` delivers to exactly the members that resolve to an open
registered transport and whose send does not throw, and returns their
count — a throwing send for one member is caught and leaves every other
member's delivery intact; in particular, when no send throws, it delivers
to exactly the `N` live open members (skipping the stale identities) and
returns `N`. -/
theorem broadcastToRoom_delivers_exactly_live (cfg : Config) (st : ServerState)
    (isOpen sendOk : Nat → Bool) (roomId : String) (room : Room)
    (hbc : cfg.enableRoomBroadcast = true)
    (hroom : lookupRoom st.rooms roomId = some room) :
    broadcastToRoom cfg st isOpen sendOk roomId =
      ((room.clients.filter (deliveredPred st.clients isOpen sendOk)).length,
       room.clients.filter (deliveredPred st.clients isOpen sendOk)) ∧
    ((∀ cid ∈ room.clients, ∀ ws, findWsByClientId st.clients cid = some ws →
        isOpen ws = true → sendOk ws = true) →
      broadcastToRoom cfg st isOpen sendOk roomId =
        ((room.clients.filter (liveOpen st.clients isOpen)).length,
         room.clients.filter (liveOpen st.clients isOpen))) := by
  have hmain : broadcastToRoom cfg st isOpen sendOk roomId =
      ((room.clients.filter (deliveredPred st.clients isOpen sendOk)).length,
       room.clients.filter (deliveredPred st.clients isOpen sendOk)) := by
    unfold broadcastToRoom
    rw [hbc, hroom]
    simp [foldl_deliverStep]
  refine ⟨hmain, fun hok => ?_⟩
  have hfilters : room.clients.filter (deliveredPred st.clients isOpen sendOk) =
      room.clients.filter (liveOpen st.clients isOpen) := by
    refine List.filter_congr (fun cid hcid => ?_)
    unfold deliveredPred liveOpen
    cases hfind : findWsByClientId st.clients cid with
    | none => rfl
    | some ws =>
      show (isOpen ws && sendOk ws) = isOpen ws
      cases ho : isOpen ws with
      | false => simp
      | true => simp [hok cid hcid ws hfind ho]
  rw [hmain, hfilters]

/-- Concrete instantiation of C4's theorem: room `r` holds two live
members `a`, `b` and a stale identity `ghost`; when `b`'s transport send
throws, only `a`'s delivery is counted; when no send throws, both live
members are delivered to and the stale identity is skipped. -/
theorem broadcastToRoom_delivers_exactly_live_witness :
    broadcastToRoom
      { enableAuthentication := false, authToken := "", requiredFields := [],
        enableHeartbeat := true, heartbeatInterval := 30000, maxConnections := 10,
        enableDataValidation := true, enableDatabaseSync := true,
        enableRoomBroadcast := true, dbTableName := "sensor_data",
        dbSupportsSubscribe := false }
      { clients := [(0, { id := "a", isAuthenticated := true, dataReceived := 0,
                          lastHeartbeat := 0, lastDataTime := none }),
                    (1, { id := "b", isAuthenticated := true, dataReceived := 0,
                          lastHeartbeat := 0, lastDataTime := none })],
        rooms := [("r", { clients := ["a", "b", "ghost"], table := none })],
        dbSubscriptions := [], connectionCount := 2 }
      (fun _ => true) (fun w => w != 1) "r" = (1, ["a"]) ∧
    broadcastToRoom
      { enableAuthentication := false, authToken := "", requiredFields := [],
        enableHeartbeat := true, heartbeatInterval := 30000, maxConnections := 10,
        enableDataValidation := true, enableDatabaseSync := true,
        enableRoomBroadcast := true, dbTableName := "sensor_data",
        dbSupportsSubscribe := false }
      { clients := [(0, { id := "a", isAuthenticated := true, dataReceived := 0,
                          lastHeartbeat := 0, lastDataTime := none }),
                    (1, { id := "b", isAuthenticated := true, dataReceived := 0,
                          lastHeartbeat := 0, lastDataTime := none })],
        rooms := [("r", { clients := ["a", "b", "ghost"], table := none })],
        dbSubscriptions := [], connectionCount := 2 }
      (fun _ => true) (fun _ => true) "r" = (2, ["a", "b"]) := by
  constructor
  · have h := broadcastToRoom_delivers_exactly_live
      { enableAuthentication := false, authToken := "", requiredFields := [],
        enableHeartbeat := true, heartbeatInterval := 30000, maxConnections := 10,
        enableDataValidation := true, enableDatabaseSync := true,
        enableRoomBroadcast := true, dbTableName := "sensor_data",
        dbSupportsSubscribe := false }
      { clients := [(0, { id := "a", isAuthenticated := true, dataReceived := 0,
                          lastHeartbeat := 0, lastDataTime := none }),
                    (1, { id := "b", isAuthenticated := true, dataReceived := 0,
                          lastHeartbeat := 0, lastDataTime := none })],
        rooms := [("r", { clients := ["a", "b", "ghost"], table := none })],
        dbSubscriptions := [], connectionCount := 2 }
      (fun _ => true) (fun w => w != 1) "r"
      { clients := ["a", "b", "ghost"], table := none } rfl rfl
    rw [h.1]
    rfl
  · have h := broadcastToRoom_delivers_exactly_live
      { enableAuthentication := false, authToken := "", requiredFields := [],
        enableHeartbeat := true, heartbeatInterval := 30000, maxConnections := 10,
        enableDataValidation := true, enableDatabaseSync := true,
        enableRoomBroadcast := true, dbTableName := "sensor_data",
        dbSupportsSubscribe := false }
      { clients := [(0, { id := "a", isAuthenticated := true, dataReceived := 0,
                          lastHeartbeat := 0, lastDataTime := none }),
                    (1, { id := "b", isAuthenticated := true, dataReceived := 0,
                          lastHeartbeat := 0, lastDataTime := none })],
        rooms := [("r", { clients := ["a", "b", "ghost"], table := none })],
        dbSubscriptions := [], connectionCount := 2 }
      (fun _ => true) (fun _ => true) "r"
      { clients := ["a", "b", "ghost"], table := none } rfl rfl
    rw [h.2 (fun _ _ _ _ _ => rfl)]
    rfl

-- C5: capacity ceiling

/-- Claim C5: a connection arriving while the count is at or above the
configured maximum is closed immediately with capacity status 1013, no
session state is created (registry, rooms, feeds and count untouched, no
heartbeat started, no welcome frame sent), and its id never appears in
the client list of `getStatus`. -/
theorem connection_rejected_at_capacity (cfg : Config) (st : ServerState)
    (ws : Nat) (cid : String) (now : Nat)
    (hcap : (cfg.maxConnections : Int) ≤ st.connectionCount)
    (hfresh : ∀ p ∈ st.clients, p.2.id ≠ cid) :
    handleNewConnection cfg st ws cid now =
      (st, [Effect.closeConn ws 1013 "Server overloaded"]) ∧
    ∀ info ∈ (getStatus cfg (handleNewConnection cfg st ws cid now).1).clients,
      info.id ≠ cid := by
  have hmain : handleNewConnection cfg st ws cid now =
      (st, [Effect.closeConn ws 1013 "Server overloaded"]) := by
    unfold handleNewConnection
    exact if_pos hcap
  refine ⟨hmain, ?_⟩
  rw [hmain]
  intro info hinfo
  simp only [getStatus, List.mem_map] at hinfo
  rcases hinfo with ⟨p, hp, rfl⟩
  exact hfresh p hp

/-- Concrete instantiation of C5's theorem: `maxConnections = 1`, one
client already connected; a second connection is refused and absent from
the status client list. -/
theorem connection_rejected_at_capacity_witness :
    handleNewConnection
      { enableAuthentication := false, authToken := "", requiredFields := [],
        enableHeartbeat := true, heartbeatInterval := 30000, maxConnections := 1,
        enableDataValidation := true, enableDatabaseSync := true,
        enableRoomBroadcast := true, dbTableName := "t",
        dbSupportsSubscribe := false }
      { clients := [(0, { id := "c1", isAuthenticated := true, dataReceived := 0,
                          lastHeartbeat := 0, lastDataTime := none })],
        rooms := [], dbSubscriptions := [], connectionCount := 1 }
      1 "c2" 7 =
      ({ clients := [(0, { id := "c1", isAuthenticated := true, dataReceived := 0,
                           lastHeartbeat := 0, lastDataTime := none })],
         rooms := [], dbSubscriptions := [], connectionCount := 1 },
       [Effect.closeConn 1 1013 "Server overloaded"]) ∧
    ∀ info ∈ (getStatus
      { enableAuthentication := false, authToken := "", requiredFields := [],
        enableHeartbeat := true, heartbeatInterval := 30000, maxConnections := 1,
        enableDataValidation := true, enableDatabaseSync := true,
        enableRoomBroadcast := true, dbTableName := "t",
        dbSupportsSubscribe := false }
      (handleNewConnection
        { enableAuthentication := false, authToken := "", requiredFields := [],
          enableHeartbeat := true, heartbeatInterval := 30000, maxConnections := 1,
          enableDataValidation := true, enableDatabaseSync := true,
          enableRoomBroadcast := true, dbTableName := "t",
          dbSupportsSubscribe := false }
        { clients := [(0, { id := "c1", isAuthenticated := true, dataReceived := 0,
                            lastHeartbeat := 0, lastDataTime := none })],
          rooms := [], dbSubscriptions := [], connectionCount := 1 }
        1 "c2" 7).1).clients, info.id ≠ "c2" := by
  exact connection_rejected_at_capacity _ _ 1 "c2" 7 (by decide) (by decide)

-- C6: sensor-data validation

theorem validateSensorData_eq (cfg : Config) (data : JSValue) :
    validateSensorData cfg data =
      (data.truthy && data.typeofObject &&
        cfg.requiredFields.all (fun f =>
          !((data.getField f).isUndefined || (data.getField f).isNull ||
            trimmedEmpty (data.getField f).jsToString))) := by
  unfold validateSensorData
  cases ht : data.truthy <;> cases hto : data.typeofObject <;> simp [ht, hto]

/-- Claim C6: with validation enabled and the sender authorized, a sensor-data
payload failing validation — not a mapping type, or some configured
required field absent, `null`, or empty after string conversion — yields
only a validation-failed response to the sender, with no storage call and
no room broadcast; a mapping payload with every required field present
and non-empty passes validation. -/
theorem sensor_data_validation_policy (cfg : Config) (st : ServerState)
    (ws : Nat) (cd : ClientData) (payload : JSValue)
    (hval : cfg.enableDataValidation = true)
    (hauth : (cfg.enableAuthentication && !cd.isAuthenticated) = false) :
    (validateSensorData cfg payload = false →
      handleSensorData cfg st ws cd payload =
        (st, [Effect.sendFrame ws (OutMsg.dataResponse false "Data validation failed")])) ∧
    (payload.typeofObject = false → validateSensorData cfg payload = false) ∧
    (∀ f ∈ cfg.requiredFields,
      ((payload.getField f).isUndefined = true ∨ (payload.getField f).isNull = true ∨
        trimmedEmpty (payload.getField f).jsToString = true) →
      validateSensorData cfg payload = false) ∧
    (∀ fields, payload = JSValue.vObj fields →
      (∀ f ∈ cfg.requiredFields,
        (payload.getField f).isUndefined = false ∧
        (payload.getField f).isNull = false ∧
        trimmedEmpty (payload.getField f).jsToString = false) →
      validateSensorData cfg payload = true) := by
  refine ⟨?_, ?_, ?_, ?_⟩
  · intro hv
    unfold handleSensorData
    rw [hauth]
    simp [hval, hv]
  · intro ht
    rw [validateSensorData_eq, ht]
    simp
  · intro f hf hbad
    rw [validateSensorData_eq]
    cases ha : cfg.requiredFields.all (fun f =>
        !((payload.getField f).isUndefined || (payload.getField f).isNull ||
          trimmedEmpty (payload.getField f).jsToString)) with
    | false => simp
    | true =>
      rw [List.all_eq_true] at ha
      have hcontra := ha f hf
      rcases hbad with hb | hb | hb <;> simp [hb] at hcontra
  · intro fields hobj hgood
    rw [validateSensorData_eq]
    subst hobj
    simp only [JSValue.truthy, JSValue.typeofObject, Bool.true_and]
    rw [List.all_eq_true]
    intro f hf
    obtain ⟨h1, h2, h3⟩ := hgood f hf
    simp [h1, h2, h3]

/-- Concrete instantiation of C6's theorem: required field `temperature`,
payload `{"humidity": 40}` missing it — only the validation-failed
response is produced; the payload `{"temperature": "25"}` passes. -/
theorem sensor_data_validation_policy_witness :
    handleSensorData
      { enableAuthentication := false, authToken := "", requiredFields := ["temperature"],
        enableHeartbeat := true, heartbeatInterval := 30000, maxConnections := 10,
        enableDataValidation := true, enableDatabaseSync := true,
        enableRoomBroadcast := true, dbTableName := "t", dbSupportsSubscribe := false }
      { clients := [], rooms := [], dbSubscriptions := [], connectionCount := 0 }
      0
      { id := "a", isAuthenticated := true, dataReceived := 0,
        lastHeartbeat := 0, lastDataTime := none }
      (JSValue.vObj [("humidity", JSValue.vNum 40)]) =
      ({ clients := [], rooms := [], dbSubscriptions := [], connectionCount := 0 },
       [Effect.sendFrame 0 (OutMsg.dataResponse false "Data validation failed")]) ∧
    validateSensorData
      { enableAuthentication := false, authToken := "", requiredFields := ["temperature"],
        enableHeartbeat := true, heartbeatInterval := 30000, maxConnections := 10,
        enableDataValidation := true, enableDatabaseSync := true,
        enableRoomBroadcast := true, dbTableName := "t", dbSupportsSubscribe := false }
      (JSValue.vObj [("temperature", JSValue.vStr "25")]) = true := by
  constructor
  · have h := sensor_data_validation_policy
      { enableAuthentication := false, authToken := "", requiredFields := ["temperature"],
        enableHeartbeat := true, heartbeatInterval := 30000, maxConnections := 10,
        enableDataValidation := true, enableDatabaseSync := true,
        enableRoomBroadcast := true, dbTableName := "t", dbSupportsSubscribe := false }
      { clients := [], rooms := [], dbSubscriptions := [], connectionCount := 0 }
      0
      { id := "a", isAuthenticated := true, dataReceived := 0,
        lastHeartbeat := 0, lastDataTime := none }
      (JSValue.vObj [("humidity", JSValue.vNum 40)]) rfl rfl
    exact h.1 rfl
  · have h := sensor_data_validation_policy
      { enableAuthentication := false, authToken := "", requiredFields := ["temperature"],
        enableHeartbeat := true, heartbeatInterval := 30000, maxConnections := 10,
        enableDataValidation := true, enableDatabaseSync := true,
        enableRoomBroadcast := true, dbTableName := "t", dbSupportsSubscribe := false }
      { clients := [], rooms := [], dbSubscriptions := [], connectionCount := 0 }
      0
      { id := "a", isAuthenticated := true, dataReceived := 0,
        lastHeartbeat := 0, lastDataTime := none }
      (JSValue.vObj [("temperature", JSValue.vStr "25")]) rfl rfl
    refine h.2.2.2 [("temperature", JSValue.vStr "25")] rfl ?_
    intro f hf
    simp only [List.mem_singleton] at hf
    subst hf
    exact ⟨rfl, rfl, by decide⟩

-- C10: failed credential check

/-- Claim C10: with authentication enabled, an `auth` frame whose token differs
from the configured token yields an `auth_response` with success `false`
and arms the delayed close; the session state is unchanged (the sender is
not marked authenticated), and the scheduled timeout closes a still-open
transport with policy-violation status 1008, so the connection does not
stay open. -/
theorem failed_auth_closes_connection (cfg : Config) (st : ServerState)
    (ws : Nat) (token : Option String)
    (hen : cfg.enableAuthentication = true)
    (htok : token ≠ some cfg.authToken) :
    handleAuthentication cfg st ws token =
      (st, [Effect.sendFrame ws (OutMsg.authResponse false "Invalid authentication token"),
            Effect.scheduleAuthFailClose ws 1008]) ∧
    authFailTimeoutBody ws ReadyState.opened =
      [Effect.closeConn ws 1008 "Authentication failed"] := by
  constructor
  · unfold handleAuthentication
    rw [hen]
    simp only [Bool.not_true, Bool.false_eq_true, if_false]
    rw [if_neg htok]
  · rfl

/-- Concrete instantiation of C10's theorem: configured token `secret`,
offered token `wrong`. -/
theorem failed_auth_closes_connection_witness :
    handleAuthentication
      { enableAuthentication := true, authToken := "secret", requiredFields := [],
        enableHeartbeat := true, heartbeatInterval := 30000, maxConnections := 10,
        enableDataValidation := true, enableDatabaseSync := true,
        enableRoomBroadcast := true, dbTableName := "t", dbSupportsSubscribe := false }
      { clients := [(0, { id := "a", isAuthenticated := false, dataReceived := 1,
                          lastHeartbeat := 0, lastDataTime := none })],
        rooms := [], dbSubscriptions := [], connectionCount := 1 }
      0 (some "wrong") =
      ({ clients := [(0, { id := "a", isAuthenticated := false, dataReceived := 1,
                           lastHeartbeat := 0, lastDataTime := none })],
         rooms := [], dbSubscriptions := [], connectionCount := 1 },
       [Effect.sendFrame 0 (OutMsg.authResponse false "Invalid authentication token"),
        Effect.scheduleAuthFailClose 0 1008]) ∧
    authFailTimeoutBody 0 ReadyState.opened =
      [Effect.closeConn 0 1008 "Authentication failed"] := by
  exact failed_auth_closes_connection _ _ 0 (some "wrong") rfl (by decide)

-- C7: change-feed lifecycle

/-- Claim C7: with a live-feed-capable backend and an authorized sender — a
subscribe while a feed already exists for the resource's room registers
no new feed and issues no collaborator subscribe call; a subscribe while
none exists registers the feed and issues exactly one subscribe call; the
unsubscribe that empties the room invokes the stored cancellation handle
exactly once and deletes both the room and the feed entry; an unsubscribe
that leaves members behind, or one arriving after the room is gone,
cancels nothing. -/
theorem subscription_feed_lifecycle (cfg : Config) (st : ServerState)
    (ws : Nat) (cd : ClientData) (table : String)
    (hsub : cfg.dbSupportsSubscribe = true)
    (hauth : checkAuth cfg cd = true)
    (ht : table ≠ "") :
    (st.dbSubscriptions.contains ("db_" ++ table) = true →
      (handleDatabaseSubscribe cfg st ws cd table).1.dbSubscriptions =
        st.dbSubscriptions ∧
      (handleDatabaseSubscribe cfg st ws cd table).2 =
        [Effect.sendFrame ws (OutMsg.dbSubscribeResponse true)]) ∧
    (st.dbSubscriptions.contains ("db_" ++ table) = false →
      (handleDatabaseSubscribe cfg st ws cd table).1.dbSubscriptions =
        st.dbSubscriptions ++ ["db_" ++ table] ∧
      (handleDatabaseSubscribe cfg st ws cd table).2 =
        [Effect.dbSubscribeCall table,
         Effect.sendFrame ws (OutMsg.dbSubscribeResponse true)]) ∧
    (∀ room, lookupRoom st.rooms ("db_" ++ table) = some room →
      (room.clients.filter (fun x => x ≠ cd.id)).isEmpty = true →
      st.dbSubscriptions.contains ("db_" ++ table) = true →
      (handleDatabaseUnsubscribe st ws cd table).2 =
        [Effect.dbCancelFeed ("db_" ++ table),
         Effect.sendFrame ws (OutMsg.dbUnsubscribeResponse true)] ∧
      lookupRoom (handleDatabaseUnsubscribe st ws cd table).1.rooms
        ("db_" ++ table) = none ∧
      (handleDatabaseUnsubscribe st ws cd table).1.dbSubscriptions.contains
        ("db_" ++ table) = false) ∧
    (∀ room, lookupRoom st.rooms ("db_" ++ table) = some room →
      (room.clients.filter (fun x => x ≠ cd.id)).isEmpty = false →
      (handleDatabaseUnsubscribe st ws cd table).2 =
        [Effect.sendFrame ws (OutMsg.dbUnsubscribeResponse true)] ∧
      (handleDatabaseUnsubscribe st ws cd table).1.dbSubscriptions =
        st.dbSubscriptions) ∧
    (lookupRoom st.rooms ("db_" ++ table) = none →
      (handleDatabaseUnsubscribe st ws cd table).1 = st ∧
      (handleDatabaseUnsubscribe st ws cd table).2 =
        [Effect.sendFrame ws (OutMsg.dbUnsubscribeResponse true)]) := by
  refine ⟨?_, ?_, ?_, ?_, ?_⟩
  · intro hcon
    have hmem : ("db_" ++ table) ∈ st.dbSubscriptions := by
      simp only [List.contains, List.elem_iff] at hcon
      exact hcon
    simp [handleDatabaseSubscribe, hauth, ht, hsub, hmem]
  · intro hcon
    have hmem : ("db_" ++ table) ∉ st.dbSubscriptions := by
      simp only [List.contains] at hcon
      intro hin
      rw [List.elem_iff.mpr hin] at hcon
      exact Bool.noConfusion hcon
    simp [handleDatabaseSubscribe, hauth, ht, hsub, hmem]
  · intro room hroom hemp hcon
    have hred : handleDatabaseUnsubscribe st ws cd table =
        ({ st with rooms := removeRoom st.rooms ("db_" ++ table),
                   dbSubscriptions :=
                     st.dbSubscriptions.filter (fun x => x ≠ ("db_" ++ table)) },
         [Effect.dbCancelFeed ("db_" ++ table),
          Effect.sendFrame ws (OutMsg.dbUnsubscribeResponse true)]) := by
      unfold handleDatabaseUnsubscribe
      rw [if_neg ht]
      simp only [hroom]
      rw [if_pos hemp, if_pos hcon, if_pos hcon]
      rfl
    refine ⟨?_, ?_, ?_⟩
    · rw [hred]
    · rw [hred]
      exact lookupRoom_removeRoom_self st.rooms ("db_" ++ table)
    · rw [hred]
      simp [List.contains, List.elem_iff, List.mem_filter]
  · intro room hroom hne
    have hne' : ¬((room.clients.filter (fun x => x ≠ cd.id)).isEmpty = true) := by
      intro h
      rw [hne] at h
      exact Bool.noConfusion h
    have hred : handleDatabaseUnsubscribe st ws cd table =
        ({ st with rooms := setRoom st.rooms ("db_" ++ table) { room with clients := room.clients.filter (fun x => x ≠ cd.id) } },
         [Effect.sendFrame ws (OutMsg.dbUnsubscribeResponse true)]) := by
      unfold handleDatabaseUnsubscribe
      rw [if_neg ht]
      simp only [hroom]
      rw [if_neg hne']
    constructor
    · rw [hred]
    · rw [hred]
  · intro hnone
    have hred : handleDatabaseUnsubscribe st ws cd table =
        (st, [Effect.sendFrame ws (OutMsg.dbUnsubscribeResponse true)]) := by
      unfold handleDatabaseUnsubscribe
      rw [if_neg ht]
      simp only [hnone]
    constructor
    · rw [hred]
    · rw [hred]

/-- Concrete instantiation of C7's theorem: one feed for resource
`sensors`; a fresh subscribe registers it once, and the unsubscribe of
the last member cancels it once and deletes both entries. -/
theorem subscription_feed_lifecycle_witness :
    (handleDatabaseSubscribe
      { enableAuthentication := false, authToken := "", requiredFields := [],
        enableHeartbeat := true, heartbeatInterval := 30000, maxConnections := 10,
        enableDataValidation := true, enableDatabaseSync := true,
        enableRoomBroadcast := true, dbTableName := "t", dbSupportsSubscribe := true }
      { clients := [], rooms := [], dbSubscriptions := [], connectionCount := 0 }
      0 { id := "a", isAuthenticated := true, dataReceived := 0,
          lastHeartbeat := 0, lastDataTime := none }
      "sensors").1.dbSubscriptions = [] ++ ["db_" ++ "sensors"] ∧
    (handleDatabaseUnsubscribe
      { clients := [], rooms := [("db_" ++ "sensors",
          { clients := ["a"], table := some "sensors" })],
        dbSubscriptions := ["db_" ++ "sensors"], connectionCount := 0 }
      0 { id := "a", isAuthenticated := true, dataReceived := 0,
          lastHeartbeat := 0, lastDataTime := none }
      "sensors").2 =
      [Effect.dbCancelFeed ("db_" ++ "sensors"),
       Effect.sendFrame 0 (OutMsg.dbUnsubscribeResponse true)] ∧
    lookupRoom (handleDatabaseUnsubscribe
      { clients := [], rooms := [("db_" ++ "sensors",
          { clients := ["a"], table := some "sensors" })],
        dbSubscriptions := ["db_" ++ "sensors"], connectionCount := 0 }
      0 { id := "a", isAuthenticated := true, dataReceived := 0,
          lastHeartbeat := 0, lastDataTime := none }
      "sensors").1.rooms ("db_" ++ "sensors") = none := by
  have h1 := subscription_feed_lifecycle
    { enableAuthentication := false, authToken := "", requiredFields := [],
      enableHeartbeat := true, heartbeatInterval := 30000, maxConnections := 10,
      enableDataValidation := true, enableDatabaseSync := true,
      enableRoomBroadcast := true, dbTableName := "t", dbSupportsSubscribe := true }
    { clients := [], rooms := [], dbSubscriptions := [], connectionCount := 0 }
    0 { id := "a", isAuthenticated := true, dataReceived := 0,
        lastHeartbeat := 0, lastDataTime := none }
    "sensors" rfl rfl (by decide)
  have h2 := subscription_feed_lifecycle
    { enableAuthentication := false, authToken := "", requiredFields := [],
      enableHeartbeat := true, heartbeatInterval := 30000, maxConnections := 10,
      enableDataValidation := true, enableDatabaseSync := true,
      enableRoomBroadcast := true, dbTableName := "t", dbSupportsSubscribe := true }
    { clients := [], rooms := [("db_" ++ "sensors",
        { clients := ["a"], table := some "sensors" })],
      dbSubscriptions := ["db_" ++ "sensors"], connectionCount := 0 }
    0 { id := "a", isAuthenticated := true, dataReceived := 0,
        lastHeartbeat := 0, lastDataTime := none }
    "sensors" rfl rfl (by decide)
  obtain ⟨hc, hl, _⟩ := h2.2.2.1 { clients := ["a"], table := some "sensors" }
    rfl (by decide) (by decide)
  exact ⟨(h1.2.1 (by decide)).1, hc, hl⟩

-- C8: authentication gating of data-plane messages

/-- Claim C8 counterexample: with authentication enabled and the sender not yet
authenticated, a `join_room` frame is processed with no authorization
check — the room registry is mutated and a `room_joined` confirmation
(not an error frame) is sent — refuting the claim that every data-plane
message from an unauthenticated session is rejected with an
authorization-required error and causes no handler side effects. -/
theorem unauthenticated_join_room_processed :
    handleClientMessage
      { enableAuthentication := true, authToken := "secret", requiredFields := [],
        enableHeartbeat := true, heartbeatInterval := 30000, maxConnections := 10,
        enableDataValidation := true, enableDatabaseSync := true,
        enableRoomBroadcast := true, dbTableName := "t", dbSupportsSubscribe := false }
      { clients := [(0, { id := "c1", isAuthenticated := false, dataReceived := 0,
                          lastHeartbeat := 0, lastDataTime := none })],
        rooms := [], dbSubscriptions := [], connectionCount := 1 }
      0 (InMsg.joinRoom "room1") 5 =
      ({ clients := [(0, { id := "c1", isAuthenticated := false, dataReceived := 1,
                           lastHeartbeat := 0, lastDataTime := some 5 })],
         rooms := [("room1", { clients := ["c1"], table := none })],
         dbSubscriptions := [], connectionCount := 1 },
       [Effect.sendFrame 0 (OutMsg.roomJoined "room1")]) := by
  decide

/-- Claim C8 (amended): with authentication enabled, a message of a gated kind
(sensor data, database create/read/update/delete, database subscribe)
from an unauthenticated session yields exactly one
authorization-required error frame to the sender, no close, and no state
change beyond the router's liveness-counter stamp on the sender's own
record; `db_unsubscribe`, `join_room` and `leave_room` are not gated. -/
theorem auth_gate_rejects_gated_kinds (cfg : Config) (st : ServerState)
    (ws : Nat) (cd : ClientData) (msg : InMsg) (now : Nat)
    (hen : cfg.enableAuthentication = true)
    (hlook : lookupClient st.clients ws = some cd)
    (hna : cd.isAuthenticated = false)
    (hg : gatedByAuth msg = true) :
    handleClientMessage cfg st ws msg now =
      ({ st with clients := updateClient st.clients ws (fun c => { c with dataReceived := c.dataReceived + 1, lastDataTime := some now }) },
       [Effect.sendFrame ws (OutMsg.errorMsg "Authentication required")]) := by
  simp only [handleClientMessage, hlook]
  cases msg with
  | auth token => simp [gatedByAuth] at hg
  | sensorData p => simp [dispatchMessage, handleSensorData, hen, hna]
  | heartbeat => simp [gatedByAuth] at hg
  | ping => simp [gatedByAuth] at hg
  | dbCreate t hd => simp [dispatchMessage, handleDatabaseCreate, checkAuth, hen, hna]
  | dbRead t => simp [dispatchMessage, handleDatabaseRead, checkAuth, hen, hna]
  | dbUpdate t hd => simp [dispatchMessage, handleDatabaseUpdate, checkAuth, hen, hna]
  | dbDelete t => simp [dispatchMessage, handleDatabaseDelete, checkAuth, hen, hna]
  | dbSubscribe t => simp [dispatchMessage, handleDatabaseSubscribe, checkAuth, hen, hna]
  | dbUnsubscribe t => simp [gatedByAuth] at hg
  | joinRoom r => simp [gatedByAuth] at hg
  | leaveRoom r => simp [gatedByAuth] at hg
  | unknown t => simp [gatedByAuth] at hg

/-- Concrete instantiation of C8's amended theorem: an unauthenticated
`db_create` is refused with only the authorization error. -/
theorem auth_gate_rejects_gated_kinds_witness :
    handleClientMessage
      { enableAuthentication := true, authToken := "secret", requiredFields := [],
        enableHeartbeat := true, heartbeatInterval := 30000, maxConnections := 10,
        enableDataValidation := true, enableDatabaseSync := true,
        enableRoomBroadcast := true, dbTableName := "t", dbSupportsSubscribe := false }
      { clients := [(0, { id := "c1", isAuthenticated := false, dataReceived := 0,
                          lastHeartbeat := 0, lastDataTime := none })],
        rooms := [], dbSubscriptions := [], connectionCount := 1 }
      0 (InMsg.dbCreate "users" true) 5 =
      ({ clients := updateClient
          [(0, { id := "c1", isAuthenticated := false, dataReceived := 0,
                 lastHeartbeat := 0, lastDataTime := none })]
          0 (fun c => { c with dataReceived := c.dataReceived + 1, lastDataTime := some 5 }),
         rooms := [], dbSubscriptions := [], connectionCount := 1 },
       [Effect.sendFrame 0 (OutMsg.errorMsg "Authentication required")]) := by
  exact auth_gate_rejects_gated_kinds _ _ 0
    { id := "c1", isAuthenticated := false, dataReceived := 0,
      lastHeartbeat := 0, lastDataTime := none }
    (InMsg.dbCreate "users" true) 5 rfl rfl rfl rfl

-- C9: leave is idempotent at the handler level

/-- Claim C9: performing the leave operation twice in a row leaves the room
registry in the same state as performing it once — the second leave finds
the room absent or its membership unaffected, and (being a total
function) raises no error. -/
theorem leave_room_twice_same_registry (st : ServerState) (ws : Nat)
    (cd : ClientData) (roomId : String) :
    (handleLeaveRoom (handleLeaveRoom st ws cd roomId).1 ws cd roomId).1.rooms =
      (handleLeaveRoom st ws cd roomId).1.rooms := by
  by_cases hg : (roomId = "" || (lookupRoom st.rooms roomId).isNone) = true
  · have h1 : handleLeaveRoom st ws cd roomId = (st, []) := by
      unfold handleLeaveRoom
      rw [if_pos hg]
    rw [h1]
    show (handleLeaveRoom st ws cd roomId).1.rooms = st.rooms
    rw [h1]
  · have h1 : handleLeaveRoom st ws cd roomId =
        ({ st with rooms := leaveRoom st.rooms roomId cd.id },
         [Effect.sendFrame ws (OutMsg.roomLeft roomId)]) := by
      unfold handleLeaveRoom
      rw [if_neg hg]
    rw [h1]
    by_cases hg2 : (roomId = "" ||
        (lookupRoom (leaveRoom st.rooms roomId cd.id) roomId).isNone) = true
    · unfold handleLeaveRoom
      rw [if_pos hg2]
    · unfold handleLeaveRoom
      rw [if_neg hg2]
      simp only
      exact leaveRoom_idem st.rooms roomId cd.id

-- C3: room registry existence iff non-empty membership

/-- Claim C3: over every sequence of join and leave operations from the empty
registry, a room identifier is present in the registry exactly when its
member count is positive — join creates the room when absent before
adding the member, and leave deletes the room as its member set becomes
empty, so no empty room ever persists. -/
theorem room_exists_iff_members (ops : List RoomOp) (roomId : String) :
    (lookupRoom (runRoomOps [] ops) roomId).isSome ↔
      0 < memberCount (runRoomOps [] ops) roomId := by
  have hinv : noEmptyRooms (runRoomOps [] ops) :=
    runRoomOps_noEmpty ops [] (fun e he => absurd he (List.not_mem_nil e))
  exact noEmpty_registry_iff _ hinv roomId

-- C1: teardown

/-- Claim C1 counterexample: a session that is a member of room `r` is torn
down by the transport close path; it disappears from the registry but its
identity remains in `r`'s member set, refuting the claim that teardown
removes the session from every room it belongs to. -/
theorem disconnection_leaves_room_membership :
    lookupClient (handleClientDisconnection
      { clients := [(0, { id := "c1", isAuthenticated := true, dataReceived := 3,
                          lastHeartbeat := 0, lastDataTime := none })],
        rooms := [("r", { clients := ["c1"], table := none })],
        dbSubscriptions := [], connectionCount := 1 } 0).clients 0 = none ∧
    lookupRoom (handleClientDisconnection
      { clients := [(0, { id := "c1", isAuthenticated := true, dataReceived := 3,
                          lastHeartbeat := 0, lastDataTime := none })],
        rooms := [("r", { clients := ["c1"], table := none })],
        dbSubscriptions := [], connectionCount := 1 } 0).rooms "r" =
      some { clients := ["c1"], table := none } ∧
    memberRegistered (handleClientDisconnection
      { clients := [(0, { id := "c1", isAuthenticated := true, dataReceived := 3,
                          lastHeartbeat := 0, lastDataTime := none })],
        rooms := [("r", { clients := ["c1"], table := none })],
        dbSubscriptions := [], connectionCount := 1 } 0).clients "c1" = false := by
  decide

/-- Claim C1 (amended): teardown removes the session from the registry (and
this registry removal is idempotent) but leaves every room's member set
and the feed table untouched — the stale identity is skipped at broadcast
time; the heartbeat-timeout path does not tear down directly: it closes
the transport (status 1000), so the transport close event performs the
single registry removal. -/
theorem removeClient_idem (clients : List (Nat × ClientData)) (ws : Nat) :
    removeClient (removeClient clients ws) ws = removeClient clients ws := by
  unfold removeClient
  rw [List.filter_filter]
  simp

theorem teardown_removes_registry_only (st : ServerState) (ws : Nat) :
    (handleClientDisconnection st ws).clients = removeClient st.clients ws ∧
    (handleClientDisconnection st ws).rooms = st.rooms ∧
    (handleClientDisconnection st ws).dbSubscriptions = st.dbSubscriptions ∧
    (handleClientDisconnection (handleClientDisconnection st ws) ws).clients =
      (handleClientDisconnection st ws).clients ∧
    ∀ cfg : Config, ∀ now last : Nat, cfg.heartbeatInterval * 2 < now - last →
      heartbeatTick cfg ws ReadyState.opened now last =
        ([Effect.closeConn ws 1000 "Heartbeat timeout"], true) := by
  refine ⟨rfl, rfl, rfl, ?_, ?_⟩
  · exact removeClient_idem st.clients ws
  · intro cfg now last hlate
    unfold heartbeatTick
    rw [if_pos rfl, if_pos hlate]

/-- Concrete instantiation of C1's amended theorem: the rooms component
survives a teardown, and a tick 61 time units after the last heartbeat
with interval 30 closes the transport. -/
theorem teardown_removes_registry_only_witness :
    (handleClientDisconnection
      { clients := [(0, { id := "c1", isAuthenticated := true, dataReceived := 3,
                          lastHeartbeat := 0, lastDataTime := none })],
        rooms := [("r", { clients := ["c1"], table := none })],
        dbSubscriptions := [], connectionCount := 1 } 0).rooms =
      [("r", { clients := ["c1"], table := none })] ∧
    heartbeatTick
      { enableAuthentication := false, authToken := "", requiredFields := [],
        enableHeartbeat := true, heartbeatInterval := 30, maxConnections := 10,
        enableDataValidation := true, enableDatabaseSync := true,
        enableRoomBroadcast := true, dbTableName := "t", dbSupportsSubscribe := false }
      0 ReadyState.opened 61 0 = ([Effect.closeConn 0 1000 "Heartbeat timeout"], true) := by
  refine ⟨?_, ?_⟩
  · exact (teardown_removes_registry_only
      { clients := [(0, { id := "c1", isAuthenticated := true, dataReceived := 3,
                          lastHeartbeat := 0, lastDataTime := none })],
        rooms := [("r", { clients := ["c1"], table := none })],
        dbSubscriptions := [], connectionCount := 1 } 0).2.1
  · exact (teardown_removes_registry_only
      { clients := [(0, { id := "c1", isAuthenticated := true, dataReceived := 3,
                          lastHeartbeat := 0, lastDataTime := none })],
        rooms := [("r", { clients := ["c1"], table := none })],
        dbSubscriptions := [], connectionCount := 1 } 0).2.2.2.2
      _ 61 0 (by decide)

-- C2: the member-set / registry invariant

theorem mem_addMember (l : List String) (c x : String) (h : x ∈ addMember l c) :
    x ∈ l ∨ x = c := by
  unfold addMember at h
  by_cases hc : c ∈ l
  · rw [if_pos hc] at h
    exact Or.inl h
  · rw [if_neg hc] at h
    rcases List.mem_append.mp h with h | h
    · exact Or.inl h
    · right
      simpa using h

theorem mem_rooms_joinRoom (rooms : List (String × Room)) (r c : String)
    (e : String × Room) (he : e ∈ joinRoom rooms r c) (cid : String)
    (hcid : cid ∈ e.2.clients) :
    (∃ e1 ∈ rooms, cid ∈ e1.2.clients) ∨ cid = c := by
  unfold joinRoom at he
  by_cases hr : r = ""
  · rw [if_pos hr] at he
    exact Or.inl ⟨e, he, hcid⟩
  · rw [if_neg hr] at he
    cases hlook : lookupRoom rooms r with
    | none =>
      rw [hlook] at he
      rcases mem_setRoom _ _ _ _ he with h1 | h1
      · subst h1
        rcases mem_addMember [] c cid hcid with h2 | h2
        · exact absurd h2 (List.not_mem_nil cid)
        · exact Or.inr h2
      · exact Or.inl ⟨e, h1, hcid⟩
    | some room =>
      rw [hlook] at he
      rcases mem_setRoom _ _ _ _ he with h1 | h1
      · subst h1
        rcases mem_addMember room.clients c cid hcid with h2 | h2
        · exact Or.inl ⟨(r, room), lookupRoom_mem _ _ _ hlook, h2⟩
        · exact Or.inr h2
      · exact Or.inl ⟨e, h1, hcid⟩

theorem mem_rooms_subscribeJoin (rooms : List (String × Room)) (r table c : String)
    (e : String × Room) (he : e ∈ subscribeJoin rooms r table c) (cid : String)
    (hcid : cid ∈ e.2.clients) :
    (∃ e1 ∈ rooms, cid ∈ e1.2.clients) ∨ cid = c := by
  unfold subscribeJoin at he
  cases hlook : lookupRoom rooms r with
  | none =>
    rw [hlook] at he
    rcases mem_setRoom _ _ _ _ he with h1 | h1
    · subst h1
      rcases mem_addMember [] c cid hcid with h2 | h2
      · exact absurd h2 (List.not_mem_nil cid)
      · exact Or.inr h2
    · exact Or.inl ⟨e, h1, hcid⟩
  | some room =>
    rw [hlook] at he
    rcases mem_setRoom _ _ _ _ he with h1 | h1
    · subst h1
      rcases mem_addMember room.clients c cid hcid with h2 | h2
      · exact Or.inl ⟨(r, room), lookupRoom_mem _ _ _ hlook, h2⟩
      · exact Or.inr h2
    · exact Or.inl ⟨e, h1, hcid⟩

theorem mem_rooms_leaveRoom (rooms : List (String × Room)) (r c : String)
    (e : String × Room) (he : e ∈ leaveRoom rooms r c) (cid : String)
    (hcid : cid ∈ e.2.clients) :
    ∃ e1 ∈ rooms, cid ∈ e1.2.clients := by
  by_cases hr : r = ""
  · unfold leaveRoom at he
    rw [if_pos hr] at he
    exact ⟨e, he, hcid⟩
  · cases hlook : lookupRoom rooms r with
    | none =>
      rw [leaveRoom_of_lookup_none c hr hlook] at he
      exact ⟨e, he, hcid⟩
    | some room =>
      by_cases hemp : (room.clients.filter (fun x => x ≠ c)).isEmpty
      · rw [leaveRoom_of_empty hr hlook hemp] at he
        exact ⟨e, mem_removeRoom _ _ _ he, hcid⟩
      · rw [leaveRoom_of_nonempty hr hlook hemp] at he
        rcases mem_setRoom _ _ _ _ he with h1 | h1
        · subst h1
          exact ⟨(r, room), lookupRoom_mem _ _ _ hlook,
            List.mem_of_mem_filter hcid⟩
        · exact ⟨e, h1, hcid⟩

theorem memberRegistered_updateClient (clients : List (Nat × ClientData))
    (ws : Nat) (f : ClientData → ClientData) (hf : ∀ c, (f c).id = c.id)
    (cid : String) :
    memberRegistered (updateClient clients ws f) cid =
      memberRegistered clients cid := by
  unfold memberRegistered
  induction clients with
  | nil => rfl
  | cons e rest ih =>
    obtain ⟨k, v⟩ := e
    by_cases hk : k = ws
    · simp [updateClient, hk, List.any_cons, hf]
    · simp only [updateClient, hk, if_false]
      simp [List.any_cons, ih]

theorem memberRegistered_append (clients : List (Nat × ClientData))
    (p : Nat × ClientData) (cid : String)
    (h : memberRegistered clients cid = true) :
    memberRegistered (clients ++ [p]) cid = true := by
  unfold memberRegistered at h ⊢
  rw [List.any_append]
  simp [h]

theorem setClient_of_lookup_none (clients : List (Nat × ClientData)) (ws : Nat)
    (v : ClientData) (h : lookupClient clients ws = none) :
    setClient clients ws v = clients ++ [(ws, v)] := by
  induction clients with
  | nil => rfl
  | cons e rest ih =>
    obtain ⟨k, w⟩ := e
    by_cases hk : k = ws
    · simp [lookupClient, hk] at h
    · simp only [lookupClient, hk, if_false] at h
      simp [setClient, hk, ih h]

theorem memberRegistered_of_lookup (clients : List (Nat × ClientData)) (ws : Nat)
    (cd : ClientData) (h : lookupClient clients ws = some cd) :
    memberRegistered clients cd.id = true := by
  unfold memberRegistered
  induction clients with
  | nil => simp [lookupClient] at h
  | cons e rest ih =>
    obtain ⟨k, v⟩ := e
    by_cases hk : k = ws
    · simp only [lookupClient, hk, if_pos, Option.some.injEq] at h
      subst h
      simp [List.any_cons]
    · simp only [lookupClient, hk, if_false] at h
      simp [List.any_cons, ih h]

theorem regInvariant_iff (st : ServerState) :
    regInvariant st = true ↔
      ∀ e ∈ st.rooms, ∀ cid ∈ e.2.clients,
        memberRegistered st.clients cid = true := by
  simp [regInvariant, List.all_eq_true]

theorem regInvariant_updateClient (st : ServerState) (ws : Nat)
    (f : ClientData → ClientData) (hf : ∀ c, (f c).id = c.id)
    (h : regInvariant st = true) :
    regInvariant { st with clients := updateClient st.clients ws f } = true := by
  rw [regInvariant_iff] at h ⊢
  intro e he cid hcid
  show memberRegistered (updateClient st.clients ws f) cid = true
  rw [memberRegistered_updateClient st.clients ws f hf cid]
  exact h e he cid hcid

-- Per-handler preservation of the invariant

theorem handleAuthentication_state_regInvariant (cfg : Config) (st : ServerState)
    (ws : Nat) (token : Option String) (h : regInvariant st = true) :
    regInvariant (handleAuthentication cfg st ws token).1 = true := by
  unfold handleAuthentication
  by_cases hA : (!cfg.enableAuthentication) = true
  · rw [if_pos hA]
    exact h
  · rw [if_neg hA]
    by_cases hT : token = some cfg.authToken
    · rw [if_pos hT]
      exact regInvariant_updateClient st ws _ (fun c => rfl) h
    · rw [if_neg hT]
      exact h

theorem handleSensorData_state (cfg : Config) (st : ServerState) (ws : Nat)
    (cd : ClientData) (p : JSValue) : (handleSensorData cfg st ws cd p).1 = st := by
  unfold handleSensorData
  split
  · rfl
  · split <;> rfl

theorem handleDatabaseCreate_state (cfg : Config) (st : ServerState) (ws : Nat)
    (cd : ClientData) (t : String) (hd : Bool) :
    (handleDatabaseCreate cfg st ws cd t hd).1 = st := by
  unfold handleDatabaseCreate
  split
  · rfl
  · split <;> rfl

theorem handleDatabaseRead_state (cfg : Config) (st : ServerState) (ws : Nat)
    (cd : ClientData) (t : String) :
    (handleDatabaseRead cfg st ws cd t).1 = st := by
  unfold handleDatabaseRead
  split
  · rfl
  · split <;> rfl

theorem handleDatabaseUpdate_state (cfg : Config) (st : ServerState) (ws : Nat)
    (cd : ClientData) (t : String) (hd : Bool) :
    (handleDatabaseUpdate cfg st ws cd t hd).1 = st := by
  unfold handleDatabaseUpdate
  split
  · rfl
  · split <;> rfl

theorem handleDatabaseDelete_state (cfg : Config) (st : ServerState) (ws : Nat)
    (cd : ClientData) (t : String) :
    (handleDatabaseDelete cfg st ws cd t).1 = st := by
  unfold handleDatabaseDelete
  split
  · rfl
  · split <;> rfl

theorem handleDatabaseSubscribe_state_regInvariant (cfg : Config)
    (st : ServerState) (ws : Nat) (cd : ClientData) (table : String)
    (hcd : memberRegistered st.clients cd.id = true)
    (h : regInvariant st = true) :
    regInvariant (handleDatabaseSubscribe cfg st ws cd table).1 = true := by
  unfold handleDatabaseSubscribe
  by_cases hA : (!checkAuth cfg cd) = true
  · rw [if_pos hA]
    exact h
  · rw [if_neg hA]
    by_cases ht : table = ""
    · rw [if_pos ht]
      exact h
    · rw [if_neg ht]
      rw [regInvariant_iff] at h ⊢
      intro e he cid hcid
      rcases mem_rooms_subscribeJoin st.rooms ("db_" ++ table) table cd.id e he
        cid hcid with ⟨e1, he1, hc1⟩ | hc
      · exact h e1 he1 cid hc1
      · subst hc
        exact hcd

theorem handleDatabaseUnsubscribe_state_regInvariant (st : ServerState)
    (ws : Nat) (cd : ClientData) (table : String) (h : regInvariant st = true) :
    regInvariant (handleDatabaseUnsubscribe st ws cd table).1 = true := by
  unfold handleDatabaseUnsubscribe
  by_cases ht : table = ""
  · rw [if_pos ht]
    exact h
  · rw [if_neg ht]
    rcases Option.eq_none_or_eq_some (lookupRoom st.rooms ("db_" ++ table)) with
      hlook | ⟨room, hlook⟩
    · simp only [hlook]
      exact h
    · simp only [hlook]
      by_cases hemp : (room.clients.filter (fun x => x ≠ cd.id)).isEmpty = true
      · rw [if_pos hemp]
        rw [regInvariant_iff] at h ⊢
        intro e he cid hcid
        exact h e (mem_removeRoom _ _ _ he) cid hcid
      · rw [if_neg hemp]
        rw [regInvariant_iff] at h ⊢
        intro e he cid hcid
        rcases mem_setRoom _ _ _ _ he with h1 | h1
        · subst h1
          exact h ("db_" ++ table, room) (lookupRoom_mem _ _ _ hlook) cid
            (List.mem_of_mem_filter hcid)
        · exact h e h1 cid hcid

theorem handleJoinRoom_state_regInvariant (st : ServerState) (ws : Nat)
    (cd : ClientData) (roomId : String)
    (hcd : memberRegistered st.clients cd.id = true)
    (h : regInvariant st = true) :
    regInvariant (handleJoinRoom st ws cd roomId).1 = true := by
  unfold handleJoinRoom
  by_cases hr : roomId = ""
  · rw [if_pos hr]
    exact h
  · rw [if_neg hr]
    rw [regInvariant_iff] at h ⊢
    intro e he cid hcid
    rcases mem_rooms_joinRoom st.rooms roomId cd.id e he cid hcid with
      ⟨e1, he1, hc1⟩ | hc
    · exact h e1 he1 cid hc1
    · subst hc
      exact hcd

theorem handleLeaveRoom_state_regInvariant (st : ServerState) (ws : Nat)
    (cd : ClientData) (roomId : String) (h : regInvariant st = true) :
    regInvariant (handleLeaveRoom st ws cd roomId).1 = true := by
  unfold handleLeaveRoom
  by_cases hg : (roomId = "" || (lookupRoom st.rooms roomId).isNone) = true
  · rw [if_pos hg]
    exact h
  · rw [if_neg hg]
    rw [regInvariant_iff] at h ⊢
    intro e he cid hcid
    rcases mem_rooms_leaveRoom st.rooms roomId cd.id e he cid hcid with
      ⟨e1, he1, hc1⟩
    exact h e1 he1 cid hc1

theorem handleClientMessage_preserves_regInvariant (cfg : Config)
    (st : ServerState) (ws : Nat) (msg : InMsg) (now : Nat)
    (h : regInvariant st = true) :
    regInvariant (handleClientMessage cfg st ws msg now).1 = true := by
  unfold handleClientMessage
  rcases Option.eq_none_or_eq_some (lookupClient st.clients ws) with
    hlook | ⟨cd, hlook⟩
  · simp only [hlook]
    exact h
  · simp only [hlook]
    have hR : regInvariant { st with clients := updateClient st.clients ws (fun c => { c with dataReceived := c.dataReceived + 1, lastDataTime := some now }) } = true :=
      regInvariant_updateClient st ws _ (fun c => rfl) h
    have hcd : memberRegistered (updateClient st.clients ws (fun c => { c with dataReceived := c.dataReceived + 1, lastDataTime := some now })) cd.id = true := by
      rw [memberRegistered_updateClient st.clients ws
        (fun c => { c with dataReceived := c.dataReceived + 1, lastDataTime := some now })
        (fun c => rfl) cd.id]
      exact memberRegistered_of_lookup st.clients ws cd hlook
    cases msg with
    | auth token =>
      simp only [dispatchMessage]
      exact handleAuthentication_state_regInvariant cfg _ ws token hR
    | sensorData p =>
      simp only [dispatchMessage]
      rw [handleSensorData_state]
      exact hR
    | heartbeat =>
      simp only [dispatchMessage]
      exact regInvariant_updateClient _ ws _ (fun c => rfl) hR
    | ping =>
      simp only [dispatchMessage]
      exact hR
    | dbCreate t hd =>
      simp only [dispatchMessage]
      rw [handleDatabaseCreate_state]
      exact hR
    | dbRead t =>
      simp only [dispatchMessage]
      rw [handleDatabaseRead_state]
      exact hR
    | dbUpdate t hd =>
      simp only [dispatchMessage]
      rw [handleDatabaseUpdate_state]
      exact hR
    | dbDelete t =>
      simp only [dispatchMessage]
      rw [handleDatabaseDelete_state]
      exact hR
    | dbSubscribe t =>
      simp only [dispatchMessage]
      exact handleDatabaseSubscribe_state_regInvariant cfg _ ws _ t hcd hR
    | dbUnsubscribe t =>
      simp only [dispatchMessage]
      exact handleDatabaseUnsubscribe_state_regInvariant _ ws _ t hR
    | joinRoom r =>
      simp only [dispatchMessage]
      exact handleJoinRoom_state_regInvariant _ ws _ r hcd hR
    | leaveRoom r =>
      simp only [dispatchMessage]
      exact handleLeaveRoom_state_regInvariant _ ws _ r hR
    | unknown t =>
      simp only [dispatchMessage]
      exact hR

theorem applyOp_preserves_regInvariant (cfg : Config) (st : ServerState) (op : Op)
    (hnd : op.isDisconnect = false)
    (hfr : ∀ ws cid now, op = Op.connect ws cid now →
      lookupClient st.clients ws = none)
    (h : regInvariant st = true) :
    regInvariant (applyOp cfg st op) = true := by
  cases op with
  | connect ws cid now =>
    have hfresh := hfr ws cid now rfl
    show regInvariant (handleNewConnection cfg st ws cid now).1 = true
    unfold handleNewConnection
    by_cases hcap : st.connectionCount ≥ (cfg.maxConnections : Int)
    · rw [if_pos hcap]
      exact h
    · rw [if_neg hcap]
      rw [regInvariant_iff] at h ⊢
      intro e he cid0 hcid0
      show memberRegistered (setClient st.clients ws
        { id := cid, isAuthenticated := !cfg.enableAuthentication,
          dataReceived := 0, lastHeartbeat := now, lastDataTime := none }) cid0 = true
      rw [setClient_of_lookup_none st.clients ws _ hfresh]
      exact memberRegistered_append st.clients _ cid0 (h e he cid0 hcid0)
  | message ws m now =>
    exact handleClientMessage_preserves_regInvariant cfg st ws m now h
  | disconnect ws =>
    exact Bool.noConfusion hnd

theorem runOps_preserves_regInvariant (cfg : Config) (ops : List Op)
    (st : ServerState) (h : regInvariant st = true)
    (hfr : opsFresh cfg st ops = true)
    (hnd : ∀ op ∈ ops, op.isDisconnect = false) :
    regInvariant (runOps cfg st ops) = true := by
  induction ops generalizing st with
  | nil => exact h
  | cons op rest ih =>
    unfold opsFresh at hfr
    rw [Bool.and_eq_true] at hfr
    have hfr2 := hfr
    show regInvariant (runOps cfg (applyOp cfg st op) rest) = true
    refine ih _ ?_ hfr2.2 (fun o ho => hnd o (List.mem_cons_of_mem _ ho))
    refine applyOp_preserves_regInvariant cfg st op
      (hnd op (List.mem_cons_self _ _)) ?_ h
    intro ws cid now hop
    subst hop
    have hfr1 := hfr2.1
    simpa [Option.isNone_iff_eq_none] using hfr1

/-- Claim C2 counterexample: run connect, join room `r`, transport close; the
resulting (reachable) state still lists identity `c1` as a member of `r`
while no registered session carries it — refuting the claim that the
member-set/registry invariant holds in every reachable state. -/
theorem registry_invariant_fails_after_disconnect :
    regInvariant (runOps
      { enableAuthentication := false, authToken := "", requiredFields := [],
        enableHeartbeat := true, heartbeatInterval := 30000, maxConnections := 10,
        enableDataValidation := true, enableDatabaseSync := true,
        enableRoomBroadcast := true, dbTableName := "t", dbSupportsSubscribe := false }
      initialState
      [Op.connect 0 "c1" 0, Op.message 0 (InMsg.joinRoom "r") 1,
       Op.disconnect 0]) = false := by
  decide

/-- Claim C2 (amended): over every event sequence free of disconnections (and
with fresh transport handles on connect, as object-keyed JS Maps
guarantee), every identity in any room's member set belongs to a
registered session; the invariant is broken only by disconnection, which
removes the session from the registry but not from room member sets. -/
theorem registry_invariant_without_disconnect (cfg : Config) (ops : List Op)
    (hfr : opsFresh cfg initialState ops = true)
    (hnd : ∀ op ∈ ops, op.isDisconnect = false) :
    regInvariant (runOps cfg initialState ops) = true :=
  runOps_preserves_regInvariant cfg ops initialState rfl hfr hnd

/-- Concrete instantiation of C2's amended theorem: connect then join. -/
theorem registry_invariant_without_disconnect_witness :
    regInvariant (runOps
      { enableAuthentication := false, authToken := "", requiredFields := [],
        enableHeartbeat := true, heartbeatInterval := 30000, maxConnections := 10,
        enableDataValidation := true, enableDatabaseSync := true,
        enableRoomBroadcast := true, dbTableName := "t", dbSupportsSubscribe := false }
      initialState
      [Op.connect 0 "c1" 0, Op.message 0 (InMsg.joinRoom "r") 1]) = true := by
  exact registry_invariant_without_disconnect _ _ (by decide) (by decide)

end WSHandler
